import Mathlib

/-
  Verification of the x402 payment protocol implementation (402Hub).

  Shallow embedding of:
  - src/src/middleware.js      (SDK server middleware: decodeProof, freshness check,
                                in-memory proof cache, verification pipeline)
  - src/src/client.js          (PaymentChallenge.parse, getTokenAddress, PaymentProof.encode,
                                X402Client.fetch / pay)
  - 402hub-api standalone middleware (parseChallenge, getTokenAddress, verifyPaymentTransaction,
                                recipient/amount checks of the request pipeline)
  - src/contracts/PaymentVerifier.sol (verifyPaymentProof, markProofUsed)

  Modelling conventions, stated once:
  - JS strings are Lean String; all case folding is ASCII (toLowerCase = Char.toLower map).
  - The base64 + JSON transport layer is modelled as the identity on the decoded JSON
    object: Buffer base64 encode/decode and JSON.stringify/parse are mutually inverse on
    the well-formed objects produced by the client, so encode/decode are related at the
    object level.
  - keccak256 over the packed field tuple is modelled by the field tuple itself
    (keccak collisions are assumed absent), and ECDSA signature recovery is an
    abstract function parameter: the theorems hold for every recovery function.
  - EVM revert is modelled by Except.error: a reverted call yields no successor state.
  - JS parseFloat is modelled with exact decimal arithmetic (scaled naturals); binary
    float rounding is irrelevant at the magnitudes appearing in the claims.
  - ethers.getAddress is modelled as: accept exactly 0x followed by 40 hex digits,
    canonical form lowercase. EIP-55 mixed-case checksum verification is not modelled.
-/

namespace X402

/-- Splits a character list at every occurrence of the delimiter, accumulator-based,
so that it reduces in the kernel (String.splitOn does not). -/
def splitAux (d : Char) : List Char → List Char → List String
  | [], acc => [String.mk acc.reverse]
  | c :: rest, acc =>
    if c = d then String.mk acc.reverse :: splitAux d rest []
    else splitAux d rest (c :: acc)

/-- JS String.prototype.split with a one-character separator (no limit argument). -/
def splitC (d : Char) (s : String) : List String :=
  splitAux d s.data []

/-- JS String.prototype.toLowerCase restricted to ASCII. -/
def lowerStr (s : String) : String :=
  String.mk (s.data.map Char.toLower)

/-- Joins strings with a separator; used to rebuild URLSearchParams values
that contain the = character. -/
def joinWith (sep : String) : List String → String
  | [] => ""
  | [x] => x
  | x :: xs => x ++ sep ++ joinWith sep xs

/-- True when every character is a decimal digit. -/
def allDigits (l : List Char) : Bool := l.all Char.isDigit

/-- Numeric value of a digit list, most significant first. -/
def digitsToNat (l : List Char) : Nat := l.foldl (fun a c => a * 10 + (c.toNat - 48)) 0

/-- ethers.parseUnits on a plain non-negative decimal string: the value scaled to the
token minor unit, None when the string is not a decimal numeral or carries more
fractional digits than the token has decimals (ethers throws in those cases). -/
def parseUnitsQ (s : String) (decimals : Nat) : Option Nat :=
  match splitC '.' s with
  | [i] =>
    if !i.data.isEmpty && allDigits i.data then some (digitsToNat i.data * 10 ^ decimals)
    else none
  | [i, f] =>
    if !i.data.isEmpty && !f.data.isEmpty && allDigits i.data && allDigits f.data
        && f.data.length ≤ decimals then
      some (digitsToNat i.data * 10 ^ decimals + digitsToNat f.data * 10 ^ (decimals - f.data.length))
    else none
  | _ => none

/-- Exact decimal value num / 10 ^ scale, the result of parsing a decimal numeral. -/
structure DecVal where
  num : Nat
  scale : Nat
deriving DecidableEq, Repr

/-- JS parseFloat on a plain non-negative decimal numeral; None models NaN. -/
def jsParseFloat (s : String) : Option DecVal :=
  match splitC '.' s with
  | [i] =>
    if !i.data.isEmpty && allDigits i.data then some ⟨digitsToNat i.data, 0⟩ else none
  | [i, f] =>
    if !i.data.isEmpty && allDigits i.data && allDigits f.data then
      some ⟨digitsToNat i.data * 10 ^ f.data.length + digitsToNat f.data, f.data.length⟩
    else none
  | _ => none

/-- Exact comparison of two decimal values by cross multiplication. -/
def decValLt (a b : DecVal) : Bool := decide (a.num * 10 ^ b.scale < b.num * 10 ^ a.scale)

/-- The JS comparison a < b on two parseFloat results: every comparison with NaN is false. -/
def jsLtFloat : Option DecVal → Option DecVal → Bool
  | some a, some b => decValLt a b
  | _, _ => false

/-- Hexadecimal digit test. -/
def isHexDigitC (c : Char) : Bool :=
  c.isDigit || ('a' ≤ c && c ≤ 'f') || ('A' ≤ c && c ≤ 'F')

/-- ethers.getAddress modelled on its accepting set: 0x followed by exactly 40 hex
digits; canonical result in lowercase (EIP-55 checksum rendering not modelled).
None models the thrown invalid-address error. -/
def getAddressQ (s : String) : Option String :=
  match s.data with
  | '0' :: 'x' :: rest =>
    if rest.length = 40 && rest.all isHexDigitC then some (lowerStr s) else none
  | _ => none

/-- ethers.ZeroAddress, the native-currency sentinel. -/
def zeroAddress : String := "0x0000000000000000000000000000000000000000"

/-- URLSearchParams construction: split on &, each entry split on the first =
(the value keeps any further = characters); URL percent-decoding is not modelled
(no claim exercises it). -/
def parseQuery (s : String) : List (String × String) :=
  if s.isEmpty then []
  else (splitC '&' s).map (fun kv =>
    match splitC '=' kv with
    | [] => ("", "")
    | [k] => (k, "")
    | k :: rest => (k, joinWith "=" rest))

/-- URLSearchParams.get: first entry with the key, null (None) when absent. -/
def lookupParam (ps : List (String × String)) (k : String) : Option String :=
  (ps.find? (fun e => e.1 == k)).map (fun e => e.2)

/-- JS truthiness of a string value: the empty string is falsy. -/
def truthyStr (s : String) : Bool := !s.isEmpty

/-- JS truthiness of a number value: 0 is falsy (NaN is not representable here). -/
def truthyInt (n : Int) : Bool := !(n == 0)

/- ## src/src/middleware.js — SDK server middleware -/

/-- The JSON object carried in the X-Payment-Proof header, as produced by
JSON.parse in decodeProof (src/src/middleware.js, lines 12-29): seven keys,
amount already a string (the client stringifies the BigInt), timestamp and
nonce JSON numbers. -/
structure ProofObj where
  txHash : String
  token : String
  recipient : String
  amount : String
  timestamp : Int
  nonce : Int
  signature : String
deriving DecidableEq, Repr

/-- All seven required fields are truthy. -/
def truthyAllProof (p : ProofObj) : Bool :=
  truthyStr p.txHash && truthyStr p.token && truthyStr p.recipient && truthyStr p.amount
    && truthyInt p.timestamp && truthyInt p.nonce && truthyStr p.signature

/-- decodeProof (src/src/middleware.js lines 12-29) after the base64 + JSON layer:
iterates the required field list in order and throws on the first field whose value
is JS-falsy (the source tests !proof[field]). -/
def decodeProofObj (p : ProofObj) : Except String ProofObj :=
  if !truthyStr p.txHash then Except.error "Missing required field: txHash"
  else if !truthyStr p.token then Except.error "Missing required field: token"
  else if !truthyStr p.recipient then Except.error "Missing required field: recipient"
  else if !truthyStr p.amount then Except.error "Missing required field: amount"
  else if !truthyInt p.timestamp then Except.error "Missing required field: timestamp"
  else if !truthyInt p.nonce then Except.error "Missing required field: nonce"
  else if !truthyStr p.signature then Except.error "Missing required field: signature"
  else Except.ok p

/-- The middleware freshness rejection (src/src/middleware.js line 250):
proof.timestamp < now - 300 || proof.timestamp > now + 60. -/
def timestampExpired (now ts : Int) : Bool :=
  decide (ts < now - 300) || decide (ts > now + 60)

/-- The in-memory proof cache: proof hash to insertion time (Map in the source). -/
abbrev ProofCache := List (String × Nat)

/-- PaymentMiddlewareConfig.isProofUsedInCache (src/src/middleware.js line 176). -/
def isProofUsedInCache (c : ProofCache) (h : String) : Bool :=
  c.any (fun e => e.1 == h)

/-- JS Map.set: replace the binding of the key, or add it. -/
def mapSet (c : ProofCache) (h : String) (t : Nat) : ProofCache :=
  c.filter (fun e => !(e.1 == h)) ++ [(h, t)]

/-- PaymentMiddlewareConfig.markProofInCache (src/src/middleware.js lines 183-193):
set the hash, then sweep entries strictly older than now - 600000. -/
def markProofInCache (c : ProofCache) (h : String) (now : Nat) : ProofCache :=
  (mapSet c h now).filter (fun e => !(decide (e.2 < now - 600000)))

/-- Status of one in-flight request of the middleware, relative to the proof cache:
before its cache lookup, past the lookup (between source lines 241 and 289, i.e.
across the awaited transaction / on-chain verification steps), granted, or denied. -/
inductive ReqPhase
  | ready
  | passed
  | accepted
  | rejected
deriving DecidableEq, Repr

/-- Shared state of the concurrency model: the proof cache shared by all in-flight
requests, and the phase of each request. -/
structure MwState where
  cache : ProofCache
  phases : List ReqPhase
deriving DecidableEq, Repr

/-- One scheduler event: request i performs its cache read (line 241), or request i
performs its cache write (line 289) at the given clock value. The two are separate
events because the source code separates them by awaited asynchronous calls, which
yield to the event loop. -/
inductive MwAction
  | check (i : Nat)
  | mark (i : Nat) (now : Nat)

/-- Small-step semantics of the middleware cache protocol for several requests
presenting the same proof hash h. -/
def mwStep (h : String) (s : MwState) : MwAction → MwState
  | MwAction.check i =>
    match s.phases[i]? with
    | some ReqPhase.ready =>
      if isProofUsedInCache s.cache h then { s with phases := s.phases.set i ReqPhase.rejected }
      else { s with phases := s.phases.set i ReqPhase.passed }
    | _ => s
  | MwAction.mark i now =>
    match s.phases[i]? with
    | some ReqPhase.passed =>
      { cache := markProofInCache s.cache h now, phases := s.phases.set i ReqPhase.accepted }
    | _ => s

/-- Runs a schedule of interleaved cache events. -/
def mwRun (h : String) (s : MwState) (acts : List MwAction) : MwState :=
  acts.foldl (mwStep h) s

/- ## src/src/client.js — client SDK -/

/-- Result of PaymentChallenge.parse (src/src/client.js lines 26-46). The recipient
is an Option because a two-part path leaves the destructured recipient undefined,
and the catch branch stores whatever value getAddress rejected. -/
structure ClientChallenge where
  token : String
  chain : String
  recipient : Option String
  amount : String
  nonce : Option Int
  currency : String
deriving DecidableEq, Repr

/-- JS parseInt on a query value, restricted to plain digit strings; None models NaN
(no claim distinguishes a NaN nonce from an absent one). -/
def jsParseIntQ (s : String) : Option Int :=
  if !s.data.isEmpty && allDigits s.data then some (digitsToNat s.data : Int) else none

/-- The third colon-separated part of the path segment of a challenge string,
written with the same splitting as the parsers below. -/
def challengeThirdPart (s : String) : Option String :=
  (splitC ':' ((splitC '?' s).headD ""))[2]?

/-- PaymentChallenge.parse (src/src/client.js lines 26-46). Splits on ? and on :,
lowercases token and chain, normalizes the recipient with getAddress but on failure
stores the raw value unchanged (the source catch branch), and reads the query
defaults. The only thrown error is the TypeError from calling toLowerCase on an
undefined chain when the path has fewer than two colon-separated parts. -/
def clientParse (challenge : String) : Except String ClientChallenge :=
  let qparts := splitC '?' challenge
  let tokenChain := qparts.headD ""
  let rest := qparts[1]?
  let cparts := splitC ':' tokenChain
  let token := cparts.headD ""
  match cparts[1]? with
  | none => Except.error "TypeError: toLowerCase of undefined"
  | some chain =>
    let recipient : Option String :=
      match cparts[2]? with
      | none => none
      | some r => some ((getAddressQ r).getD r)
    let ps := parseQuery (rest.getD "")
    Except.ok
      { token := lowerStr token
        chain := lowerStr chain
        recipient := recipient
        amount :=
          match lookupParam ps "amount" with
          | some v => if v.isEmpty then "0.001" else v
          | none => "0.001"
        nonce :=
          match lookupParam ps "nonce" with
          | some v => if v.isEmpty then none else jsParseIntQ v
          | none => none
        currency :=
          match lookupParam ps "currency" with
          | some v => if v.isEmpty then "usdc" else v
          | none => "usdc" }

/-- PaymentChallenge.getTokenAddress (src/src/client.js lines 51-69): the static
(chain, token) registry; absent entries give null. The addresses are written in
the registry in checksummed form and returned unchanged. -/
def clientGetTokenAddress (chain token : String) : Option String :=
  if chain == "base_sepolia" then
    if token == "usdc" then some "0x036CbD53842c5426634e7929541eC2318f3dCF7e"
    else if token == "mock_usdc" then some "0x0000000000000000000000000000000000000000"
    else none
  else if chain == "base" then
    if token == "usdc" then some "0x833589fCD6eDb6E08f4c7C32D4f71b54bdA02913" else none
  else if chain == "optimism_sepolia" then
    if token == "usdc" then some "0x5fd84259d66Cd46123540766Be93DFE6D43130D7" else none
  else none

/-- The null-token guard of PaymentHandler.executePayment (src/src/client.js
lines 160-165): a null token address throws before any transfer is attempted. -/
def executePaymentTokenGuard (ta : Option String) (token chain : String) :
    Except String String :=
  match ta with
  | none => Except.error ("Token address not found for " ++ token ++ " on " ++ chain)
  | some a => Except.ok a

/-- The nonce X402Client.pay uses when the challenge supplies none and no verifier
contract is configured (src/src/client.js line 265). -/
def clientDefaultNonce : Int := 0

/-- PaymentProof.encode (src/src/client.js lines 132-145) at the JSON-object level:
the seven-key object built from the transaction hash, the resolved token address,
the challenge recipient, the minor-unit amount rendered with toString, the
timestamp, the nonce and the signature. -/
def encodeProofObj (txHash tokenAddr recipient : String) (amountWei : Nat)
    (timestamp nonce : Int) (signature : String) : ProofObj :=
  { txHash := txHash
    token := tokenAddr
    recipient := recipient
    amount := toString amountWei
    timestamp := timestamp
    nonce := nonce
    signature := signature }

/-- An HTTP response as X402Client.fetch sees it: the status code and the payment
challenge of the body (body.challenge with body.payment_required as fallback,
collapsed into one optional field). -/
structure JsResponse where
  status : Nat
  challenge : Option String
deriving DecidableEq, Repr

/-- X402Client.fetch (src/src/client.js lines 214-251). The server argument gives
the response to the n-th request sent. Returns the final response together with
the number of requests sent and the number of payments executed; errors model the
thrown missing-challenge error and payment failures. The source performs one
initial fetch and, on a 402 with autoRetry, exactly one payment and one retry,
returning whatever the retry yields. -/
def clientFetch (autoRetry : Bool) (server : Nat → JsResponse)
    (payFn : String → Except String String) : Except String (JsResponse × Nat × Nat) :=
  let r0 := server 0
  if r0.status == 402 && autoRetry then
    match r0.challenge with
    | none => Except.error "402 response missing payment challenge"
    | some ch =>
      match payFn ch with
      | Except.error e => Except.error e
      | Except.ok _proof => Except.ok (server 1, 2, 1)
  else Except.ok (r0, 1, 0)

/- ## 402hub-api standalone middleware (src/unnamed/part_000) -/

/-- Result of parseChallenge (part_000 lines 12-25). The runtime nonce default
(Date.now()) is not modelled: no modelled check reads it. -/
structure P0Challenge where
  token : String
  chain : String
  recipient : String
  amount : String
deriving DecidableEq, Repr

/-- parseChallenge (part_000 lines 12-25): like the client parser but the recipient
goes through ethers.getAddress with no catch, so an invalid recipient throws out of
the parser. -/
def part000ParseChallenge (s : String) : Except String P0Challenge :=
  let qparts := splitC '?' s
  let cparts := splitC ':' (qparts.headD "")
  match cparts[1]? with
  | none => Except.error "TypeError: toLowerCase of undefined"
  | some chain =>
    match cparts[2]? with
    | none => Except.error "invalid address"
    | some r =>
      match getAddressQ r with
      | none => Except.error "invalid address"
      | some addr =>
        let ps := parseQuery ((qparts[1]?).getD "")
        Except.ok
          { token := lowerStr (cparts.headD "")
            chain := lowerStr chain
            recipient := addr
            amount :=
              match lookupParam ps "amount" with
              | some v => if v.isEmpty then "0.001" else v
              | none => "0.001" }

/-- getTokenAddress (part_000 lines 30-41): a smaller static registry than the
client one (two chains, usdc only); absent entries give null. -/
def part000GetTokenAddress (chain token : String) : Option String :=
  if chain == "base_sepolia" then
    if token == "usdc" then some "0x036CbD53842c5426634e7929541eC2318f3dCF7e" else none
  else if chain == "base" then
    if token == "usdc" then some "0x833589fCD6eDb6E08f4c7C32D4f71b54bdA02913" else none
  else none

/-- The decoded proof of the standalone middleware (part_000): decodeProof there is
bare JSON.parse, the middleware then reads these five fields. The nonce appears
only inside the signed message and is kept as its string rendering. -/
structure P0Proof where
  txHash : String
  recipient : String
  amount : String
  nonce : String
  signature : String
deriving DecidableEq, Repr

/-- The message signed over a proof (part_000 line 60). -/
def sigMessage (p : P0Proof) : String :=
  "x402:" ++ p.txHash ++ ":" ++ p.recipient ++ ":" ++ p.amount ++ ":" ++ p.nonce

/-- The basic field-presence check of the standalone middleware (part_000 line 199):
txHash, signature, recipient and amount must be truthy. -/
def p0FormatOk (p : P0Proof) : Bool :=
  truthyStr p.txHash && truthyStr p.signature && truthyStr p.recipient && truthyStr p.amount

/-- Outcome of the synchronous validation steps of the standalone middleware
(part_000 lines 196-226), before the optional on-chain transaction check:
proceed, or one of the 403 denials in source order. -/
inductive Part000Decision
  | proceed
  | invalidFormat
  | sigFail
  | recipientMismatch
  | amountInsufficient
deriving DecidableEq, Repr

/-- The standalone middleware validation pipeline (part_000 lines 196-226):
field presence, signature recovery (abstract recover function over the signed
message; None models a throwing ethers.verifyMessage), case-insensitive recipient
comparison against the challenge, then the amount comparison
parseFloat(proof.amount) < parseFloat(challenge.amount) on the raw strings. -/
def part000Validate (recoverFn : String → String → Option String)
    (p : P0Proof) (c : P0Challenge) : Part000Decision :=
  if !p0FormatOk p then Part000Decision.invalidFormat
  else
    match recoverFn (sigMessage p) p.signature with
    | none => Part000Decision.sigFail
    | some _signer =>
      if !(lowerStr p.recipient == lowerStr c.recipient) then Part000Decision.recipientMismatch
      else if jsLtFloat (jsParseFloat p.amount) (jsParseFloat c.amount) then
        Part000Decision.amountInsufficient
      else Part000Decision.proceed

/-- The call data of a transaction as ethers Interface.parseTransaction sees it
against the transfer/approve ABI of part_000: a transfer call, an approve call, or
data that does not decode against either fragment (parseTransaction throws). -/
inductive CallData
  | transfer (dest : String) (amount : Nat)
  | approve (spender : String) (amount : Nat)
  | undecodable
deriving DecidableEq, Repr

/-- A mined transaction as read from the provider: direct recipient, carried native
value in wei, and call data. -/
structure EthTx where
  toAddr : String
  value : Nat
  data : CallData
deriving DecidableEq, Repr

/-- verifyPaymentTransaction (part_000 lines 71-130). None for the transaction
models a provider miss. A null or zero token address takes the native branch
(recipient equality and value at 18 decimals); otherwise the transaction must
target the token contract and carry a transfer call with sufficient minor-unit
amount at 6 decimals. The recipient-mismatch, amount-insufficient and
parse failures inside the inner try are rethrown by its catch as the single
message Invalid token transfer transaction, exactly as in the source. -/
def part000VerifyTx (txOpt : Option EthTx) (expectedRecipient expectedAmount : String)
    (tokenAddress : Option String) : Except String Unit :=
  match txOpt with
  | none => Except.error "Transaction not found"
  | some tx =>
    if tokenAddress = none ∨ tokenAddress = some zeroAddress then
      if !(lowerStr tx.toAddr == lowerStr expectedRecipient) then
        Except.error "Transaction recipient mismatch"
      else
        match parseUnitsQ expectedAmount 18 with
        | none => Except.error "invalid decimal value"
        | some wei =>
          if tx.value < wei then Except.error "Transaction amount insufficient"
          else Except.ok ()
    else
      match tokenAddress with
      | none => Except.error "unreachable"
      | some ta =>
        if !(lowerStr tx.toAddr == lowerStr ta) then
          Except.error "Transaction not to token contract"
        else
          match tx.data with
          | CallData.transfer dest amt =>
            if !(lowerStr dest == lowerStr expectedRecipient) then
              Except.error "Invalid token transfer transaction"
            else
              match parseUnitsQ expectedAmount 6 with
              | none => Except.error "Invalid token transfer transaction"
              | some wei =>
                if amt < wei then Except.error "Invalid token transfer transaction"
                else Except.ok ()
          | CallData.approve _ _ => Except.error "Transaction is not a valid transfer"
          | CallData.undecodable => Except.error "Invalid token transfer transaction"

/- ## src/contracts/PaymentVerifier.sol -/

/-- The packed field tuple of a proof; it stands for its own keccak256 hash
(collisions assumed absent, so the tuple is the canonical hash). -/
structure SolProof where
  txHash : String
  token : String
  recipient : String
  amount : Nat
  timestamp : Nat
  nonce : Nat
deriving DecidableEq, Repr

/-- Contract storage: the used-proof set and the per-signer nonce counters
(absent entries read 0, as Solidity mappings do). -/
structure VerifierState where
  usedProofs : List SolProof
  nonces : List (String × Nat)
deriving DecidableEq, Repr

/-- Reads the nonces mapping. -/
def lookupNonce (st : VerifierState) (a : String) : Nat :=
  ((st.nonces.find? (fun e => e.1 == a)).map (fun e => e.2)).getD 0

/-- Writes the nonces mapping. -/
def setNonce (st : VerifierState) (a : String) (n : Nat) : VerifierState :=
  { st with nonces := (a, n) :: st.nonces.filter (fun e => !(e.1 == a)) }

/-- The two timestamp requires of PaymentVerifier.verifyPaymentProof
(PaymentVerifier.sol lines 59-60). -/
def solidityFreshOk (now ts : Nat) : Bool :=
  decide (now ≤ ts + 300) && decide (ts ≤ now + 60)

/-- PaymentVerifier.verifyPaymentProof (PaymentVerifier.sol lines 49-85), with the
signature recovery abstracted into the recover argument. The requires fire in
source order; Except.error carries the revert reason. -/
def verifyPaymentProofSol (recover : SolProof → String → String)
    (st : VerifierState) (now : Nat) (p : SolProof) (sig : String) : Except String Unit :=
  if !(decide (now ≤ p.timestamp + 300)) then Except.error "Proof expired"
  else if !(decide (p.timestamp ≤ now + 60)) then Except.error "Proof timestamp too far in future"
  else if p ∈ st.usedProofs then Except.error "Proof already used"
  else if !(lookupNonce st (recover p sig) == p.nonce) then Except.error "Invalid nonce"
  else Except.ok ()

/-- PaymentVerifier.markProofUsed (PaymentVerifier.sol lines 97-141): runs
verifyPaymentProof, and on success marks the hash used and increments the nonce of
the recovered payer. A revert (Except.error) produces no successor state, which is
exactly the EVM rollback semantics. -/
def markProofUsedSol (recover : SolProof → String → String)
    (st : VerifierState) (now : Nat) (p : SolProof) (sig : String) :
    Except String VerifierState :=
  match verifyPaymentProofSol recover st now p sig with
  | Except.error e => Except.error e
  | Except.ok _ =>
    let payer := recover p sig
    let st1 : VerifierState := { st with usedProofs := p :: st.usedProofs }
    Except.ok (setNonce st1 payer (lookupNonce st payer + 1))

/-- A scripted server that answers 402 with a challenge to every request; used to
exercise the client fetch flow on repeated 402 responses. -/
def c9Server : Nat → JsResponse :=
  fun n => if n == 0 then { status := 402, challenge := some "usdc:base_sepolia:0xf81dc05616C47447Ffdc5a866642cDD26271D37b?amount=0.001" }
           else { status := 402, challenge := some "usdc:base_sepolia:0xf81dc05616C47447Ffdc5a866642cDD26271D37b?amount=0.001" }

/-- A payment flow stub that always produces a proof string. -/
def c9Pay : String → Except String String :=
  fun _ => Except.ok "encodedproof"

/- ## Theorems -/

/-- C1. The claim says admit is a single atomic check-and-insert and that under N
concurrent calls with the identical hash exactly one is accepted. The middleware
instead performs a separate cache read (isProofUsedInCache, source line 241) and a
separate cache write (markProofInCache, source line 289), with awaited asynchronous
verification calls between them that yield to the event loop. First conjunct: under
the interleaving check, check, mark, mark of two requests presenting the same hash,
both requests end accepted. Second conjunct: sequentially the first is accepted and
the second rejected, so the defect is specifically concurrent. -/
theorem C1_same_hash_interleaving_double_accept :
    (mwRun "h" { cache := [], phases := [ReqPhase.ready, ReqPhase.ready] }
      [MwAction.check 0, MwAction.check 1, MwAction.mark 0 1000, MwAction.mark 1 1000]).phases
      = [ReqPhase.accepted, ReqPhase.accepted]
    ∧ (mwRun "h" { cache := [], phases := [ReqPhase.ready, ReqPhase.ready] }
      [MwAction.check 0, MwAction.mark 0 1000, MwAction.check 1]).phases
      = [ReqPhase.accepted, ReqPhase.rejected] := by
  exact ⟨by decide, by decide⟩

/-- C2. Freshness boundaries: at server time now, a proof timestamp of now - 300 or
now + 60 passes the middleware expiry test (src/src/middleware.js line 250) and the
two requires of the verifier contract, while now - 301 and now + 61 are rejected by
both. The hypothesis 301 ≤ nowS only keeps the natural subtraction of the Solidity
clock meaningful. -/
theorem C2_freshness_boundaries (now : Int) (nowS : Nat) (h : 301 ≤ nowS) :
    timestampExpired now (now - 300) = false ∧ timestampExpired now (now + 60) = false ∧
    timestampExpired now (now - 301) = true ∧ timestampExpired now (now + 61) = true ∧
    solidityFreshOk nowS (nowS - 300) = true ∧ solidityFreshOk nowS (nowS + 60) = true ∧
    solidityFreshOk nowS (nowS - 301) = false ∧ solidityFreshOk nowS (nowS + 61) = false := by
  unfold timestampExpired solidityFreshOk
  refine ⟨?_, ?_, ?_, ?_, ?_, ?_, ?_, ?_⟩ <;> simp <;> omega

/-- Witness for C2 at now = 1000 on both clocks. -/
theorem C2_freshness_boundaries_witness :
    timestampExpired 1000 (1000 - 300) = false ∧ timestampExpired 1000 (1000 + 60) = false ∧
    timestampExpired 1000 (1000 - 301) = true ∧ timestampExpired 1000 (1000 + 61) = true ∧
    solidityFreshOk 1000 (1000 - 300) = true ∧ solidityFreshOk 1000 (1000 + 60) = true ∧
    solidityFreshOk 1000 (1000 - 301) = false ∧ solidityFreshOk 1000 (1000 + 61) = false :=
  C2_freshness_boundaries 1000 1000 (by decide)

/-- C3. The round-trip claim decode(encode(fields, signature)) = fields fails on the
code for the valid field set whose nonce is 0 — precisely the default nonce the
client uses when the challenge supplies none and no verifier contract is configured
(src/src/client.js line 265), the configuration the repository test suite itself
exercises. decodeProof tests JS truthiness (!proof[field]) instead of key presence,
so the encoded proof is rejected as having a missing nonce field. -/
theorem C3_roundtrip_fails_on_default_nonce :
    decodeProofObj (encodeProofObj
      "0x1111111111111111111111111111111111111111111111111111111111111111"
      "0x036CbD53842c5426634e7929541eC2318f3dCF7e"
      "0xf81dc05616C47447Ffdc5a866642cDD26271D37b"
      1000 1700000000 clientDefaultNonce "0xsignature")
    = Except.error "Missing required field: nonce" := rfl

/-- C4 counterexample. A proof whose amount is 500 minor units (the reference client
writes minor-unit integers into proof.amount) against a challenge of 0.001 human
units, i.e. 1000 minor units for the 6-decimal token: normalized, 500 < 1000, so the
claim requires the AmountInsufficient denial — but the pipeline compares
parseFloat("500") with parseFloat("0.001") raw and proceeds. The recipient matches
case-insensitively, so no other denial masks the amount step. -/
theorem C4_unit_mismatch_not_denied :
    part000Validate (fun _ _ => some "0xsigneraddress")
      { txHash := "0xabc", recipient := "0xf81dc05616C47447Ffdc5a866642cDD26271D37b",
        amount := "500", nonce := "0", signature := "0xsig" }
      { token := "usdc", chain := "base_sepolia",
        recipient := "0xf81dc05616c47447ffdc5a866642cdd26271d37b", amount := "0.001" }
      = Part000Decision.proceed
    ∧ parseUnitsQ "0.001" 6 = some 1000
    ∧ parseUnitsQ "500" 0 = some 500
    ∧ 500 < 1000 := by
  exact ⟨by decide, by decide, by decide, by decide⟩

/-- C4 amended. The pipeline denies RecipientMismatch exactly when the decoded proof
passes the field-presence check, the signature recovers, and the lowercased
recipients differ; it denies AmountInsufficient exactly when additionally the
recipients agree and parseFloat(proof.amount) < parseFloat(challenge.amount) — a
comparison of the raw decimal strings with no unit normalization (proof amounts are
minor-unit integers, challenge amounts human-unit decimals). -/
theorem C4_raw_float_comparison (rf : String → String → Option String)
    (p : P0Proof) (c : P0Challenge) :
    (part000Validate rf p c = Part000Decision.recipientMismatch ↔
      (p0FormatOk p = true ∧ (rf (sigMessage p) p.signature).isSome = true ∧
        lowerStr p.recipient ≠ lowerStr c.recipient))
    ∧ (part000Validate rf p c = Part000Decision.amountInsufficient ↔
      (p0FormatOk p = true ∧ (rf (sigMessage p) p.signature).isSome = true ∧
        lowerStr p.recipient = lowerStr c.recipient ∧
        jsLtFloat (jsParseFloat p.amount) (jsParseFloat c.amount) = true)) := by
  unfold part000Validate
  cases hrf : rf (sigMessage p) p.signature <;>
    by_cases hf : p0FormatOk p <;>
      by_cases hr : lowerStr p.recipient = lowerStr c.recipient <;>
        by_cases ha : jsLtFloat (jsParseFloat p.amount) (jsParseFloat c.amount) <;>
          simp [hf, hr, ha]

/-- C5. ERC20 branch of verifyPaymentTransaction with a token address that is not
the native sentinel: verification succeeds exactly when the transaction targets the
token contract (case-insensitive), its call data decodes as a transfer whose
destination equals the expected recipient case-insensitively and whose minor-unit
amount (expected amount scaled at 6 decimals) is at least the expected one; a
transaction targeting a different contract fails, and call data that decodes as the
approve fragment rather than transfer fails, each with the respective source error
(the error kinds the spec groups as NotATransferCall). -/
theorem C5_erc20_transfer_branch (tx : EthTx) (er ea ta : String) (h : ta ≠ zeroAddress) :
    (part000VerifyTx (some tx) er ea (some ta) = Except.ok () ↔
      (lowerStr tx.toAddr = lowerStr ta ∧
        ∃ d a, tx.data = CallData.transfer d a ∧ lowerStr d = lowerStr er ∧
          ∃ w, parseUnitsQ ea 6 = some w ∧ w ≤ a))
    ∧ (lowerStr tx.toAddr ≠ lowerStr ta →
        part000VerifyTx (some tx) er ea (some ta) =
          Except.error "Transaction not to token contract")
    ∧ (∀ s a, tx.data = CallData.approve s a → lowerStr tx.toAddr = lowerStr ta →
        part000VerifyTx (some tx) er ea (some ta) =
          Except.error "Transaction is not a valid transfer") := by
  by_cases ht : lowerStr tx.toAddr = lowerStr ta
  · cases hd : tx.data with
    | transfer d a =>
      by_cases hd2 : lowerStr d = lowerStr er
      · cases hw : parseUnitsQ ea 6 with
        | none => simp [part000VerifyTx, h, ht, hd, hd2, hw]
        | some w =>
          by_cases haw : a < w
          · simp [part000VerifyTx, h, ht, hd, hd2, hw, haw]
          · simp [part000VerifyTx, h, ht, hd, hd2, hw, haw]
            exact ⟨d, a, ⟨rfl, rfl⟩, hd2, by omega⟩
      · simp [part000VerifyTx, h, ht, hd, hd2]
    | approve s a => simp [part000VerifyTx, h, ht, hd]
    | undecodable => simp [part000VerifyTx, h, ht, hd]
  · simp [part000VerifyTx, h, ht]

/-- Witness for C5 at a concrete transfer of 1000 minor units to the expected
recipient through the base-sepolia token contract. -/
theorem C5_erc20_transfer_branch_witness :
    (part000VerifyTx (some ⟨"0x036CbD53842c5426634e7929541eC2318f3dCF7e", 0,
        CallData.transfer "0xf81dc05616C47447Ffdc5a866642cDD26271D37b" 1000⟩)
      "0xf81dc05616C47447Ffdc5a866642cDD26271D37b" "0.001"
      (some "0x036CbD53842c5426634e7929541eC2318f3dCF7e") = Except.ok () ↔
      (lowerStr "0x036CbD53842c5426634e7929541eC2318f3dCF7e"
          = lowerStr "0x036CbD53842c5426634e7929541eC2318f3dCF7e" ∧
        ∃ d a, CallData.transfer "0xf81dc05616C47447Ffdc5a866642cDD26271D37b" 1000
            = CallData.transfer d a ∧
          lowerStr d = lowerStr "0xf81dc05616C47447Ffdc5a866642cDD26271D37b" ∧
          ∃ w, parseUnitsQ "0.001" 6 = some w ∧ w ≤ a))
    ∧ (lowerStr "0x036CbD53842c5426634e7929541eC2318f3dCF7e"
          ≠ lowerStr "0x036CbD53842c5426634e7929541eC2318f3dCF7e" →
        part000VerifyTx (some ⟨"0x036CbD53842c5426634e7929541eC2318f3dCF7e", 0,
            CallData.transfer "0xf81dc05616C47447Ffdc5a866642cDD26271D37b" 1000⟩)
          "0xf81dc05616C47447Ffdc5a866642cDD26271D37b" "0.001"
          (some "0x036CbD53842c5426634e7929541eC2318f3dCF7e") =
            Except.error "Transaction not to token contract")
    ∧ (∀ s a, CallData.transfer "0xf81dc05616C47447Ffdc5a866642cDD26271D37b" 1000
          = CallData.approve s a →
        lowerStr "0x036CbD53842c5426634e7929541eC2318f3dCF7e"
          = lowerStr "0x036CbD53842c5426634e7929541eC2318f3dCF7e" →
        part000VerifyTx (some ⟨"0x036CbD53842c5426634e7929541eC2318f3dCF7e", 0,
            CallData.transfer "0xf81dc05616C47447Ffdc5a866642cDD26271D37b" 1000⟩)
          "0xf81dc05616C47447Ffdc5a866642cDD26271D37b" "0.001"
          (some "0x036CbD53842c5426634e7929541eC2318f3dCF7e") =
            Except.error "Transaction is not a valid transfer") :=
  C5_erc20_transfer_branch
    ⟨"0x036CbD53842c5426634e7929541eC2318f3dCF7e", 0,
      CallData.transfer "0xf81dc05616C47447Ffdc5a866642cDD26271D37b" 1000⟩
    "0xf81dc05616C47447Ffdc5a866642cDD26271D37b" "0.001"
    "0x036CbD53842c5426634e7929541eC2318f3dCF7e" (by decide)

/-- C6 counterexample. The pair (optimism_sepolia, usdc) is absent from the
standalone registry and resolves to null — but the standalone transaction verifier
treats that null exactly like the native-currency sentinel: it takes the native-ETH
branch and verifies a plain value transfer successfully, so null is not treated as
an unsupported combination by all callers. -/
theorem C6_null_token_taken_as_native :
    part000GetTokenAddress "optimism_sepolia" "usdc" = none
    ∧ part000VerifyTx
        (some ⟨"0xAbCdef0123456789abcdef0123456789abcdef01", 1000000000000000,
          CallData.undecodable⟩)
        "0xabcdef0123456789abcdef0123456789abcdef01" "0.001" none = Except.ok () :=
  ⟨by decide, rfl⟩

/-- C6 amended. Resolution of a (chain, token) pair outside the static registry
returns null, and the client-side payment executor fails closed on null; the
standalone transaction verifier, however, behaves on a null token address exactly
as on the explicit zero-address native sentinel (same function value), taking the
native-currency branch. -/
theorem C6_null_token_amended (txOpt : Option EthTx) (er ea token chain : String) :
    part000VerifyTx txOpt er ea none = part000VerifyTx txOpt er ea (some zeroAddress)
    ∧ executePaymentTokenGuard none token chain =
        Except.error ("Token address not found for " ++ token ++ " on " ++ chain)
    ∧ (chain ≠ "base_sepolia" → chain ≠ "base" → part000GetTokenAddress chain token = none)
    ∧ (token ≠ "usdc" → part000GetTokenAddress chain token = none) := by
  refine ⟨?_, rfl, ?_, ?_⟩
  · cases txOpt with
    | none => rfl
    | some tx => simp [part000VerifyTx]
  · intro h1 h2
    simp [part000GetTokenAddress, h1, h2]
  · intro h1
    simp [part000GetTokenAddress, h1]

/-- Witness for C6 amended at the unsupported pair (optimism_sepolia, usdc) and a
concrete native transfer transaction. -/
theorem C6_null_token_amended_witness :
    part000VerifyTx (some ⟨"0xAbCdef0123456789abcdef0123456789abcdef01", 1000000000000000,
        CallData.undecodable⟩) "0xabcdef0123456789abcdef0123456789abcdef01" "0.001" none
      = part000VerifyTx (some ⟨"0xAbCdef0123456789abcdef0123456789abcdef01", 1000000000000000,
        CallData.undecodable⟩) "0xabcdef0123456789abcdef0123456789abcdef01" "0.001"
        (some zeroAddress)
    ∧ executePaymentTokenGuard none "usdc" "optimism_sepolia" =
        Except.error ("Token address not found for " ++ "usdc" ++ " on " ++ "optimism_sepolia")
    ∧ ("optimism_sepolia" ≠ "base_sepolia" → "optimism_sepolia" ≠ "base" →
        part000GetTokenAddress "optimism_sepolia" "usdc" = none)
    ∧ ("usdc" ≠ "usdc" → part000GetTokenAddress "optimism_sepolia" "usdc" = none) :=
  C6_null_token_amended
    (some ⟨"0xAbCdef0123456789abcdef0123456789abcdef01", 1000000000000000,
      CallData.undecodable⟩)
    "0xabcdef0123456789abcdef0123456789abcdef01" "0.001" "usdc" "optimism_sepolia"

/-- C7 counterexample. The client challenge parser does not fail with
MalformedChallenge on an invalid recipient: parsing a challenge whose third part is
not an address at all succeeds and stores the raw string as the recipient (first
conjunct); a path segment of four colon-separated parts, which does not split into
exactly three parts, also parses successfully with the extra part silently ignored
(second conjunct). -/
theorem C7_invalid_recipient_parses_ok :
    clientParse "usdc:base_sepolia:nonsense?amount=0.001" =
      Except.ok { token := "usdc", chain := "base_sepolia", recipient := some "nonsense",
                  amount := "0.001", nonce := none, currency := "usdc" }
    ∧ clientParse "usdc:base_sepolia:0xabcdef0123456789abcdef0123456789abcdef01:extra" =
      Except.ok { token := "usdc", chain := "base_sepolia",
                  recipient := some "0xabcdef0123456789abcdef0123456789abcdef01",
                  amount := "0.001", nonce := none, currency := "usdc" } :=
  ⟨rfl, rfl⟩

/-- C7 amended. Whenever the client parser succeeds and the third path part fails
address normalization, the raw invalid string is passed through unchanged as the
parsed recipient (the source catch branch stores it as-is for later validation to
catch); the standalone server parser parseChallenge, by contrast, does throw on
such a recipient. -/
theorem C7_amended_passthrough (s : String) (c : ClientChallenge) (r : String)
    (h1 : clientParse s = Except.ok c) (h2 : challengeThirdPart s = some r)
    (h3 : getAddressQ r = none) :
    c.recipient = some r ∧ ∃ e, part000ParseChallenge s = Except.error e := by
  unfold challengeThirdPart at h2
  simp only [clientParse] at h1
  simp only [part000ParseChallenge]
  cases hcp : (splitC ':' ((splitC '?' s).headD ""))[1]? with
  | none =>
    rw [hcp] at h1
    exact absurd h1 (by simp)
  | some chain =>
    rw [hcp, h2] at h1
    simp only [h3, Option.getD_none, Except.ok.injEq] at h1
    subst h1
    exact ⟨rfl, ⟨"invalid address", by rw [h2]; simp only [h3]⟩⟩

/-- Witness for C7 amended at the challenge whose recipient part is the plain word
nonsense. -/
theorem C7_amended_passthrough_witness :
    (ClientChallenge.recipient
        { token := "usdc", chain := "base_sepolia", recipient := some "nonsense",
          amount := "0.001", nonce := none, currency := "usdc" }) = some "nonsense"
    ∧ ∃ e, part000ParseChallenge "usdc:base_sepolia:nonsense?amount=0.001" =
        Except.error e :=
  C7_amended_passthrough "usdc:base_sepolia:nonsense?amount=0.001"
    { token := "usdc", chain := "base_sepolia", recipient := some "nonsense",
      amount := "0.001", nonce := none, currency := "usdc" }
    "nonsense" rfl rfl rfl

/-- Reading a nonce counter right after writing it returns the written value. -/
theorem lookupNonce_setNonce (st : VerifierState) (a : String) (n : Nat) :
    lookupNonce (setNonce st a n) a = n := by
  simp [lookupNonce, setNonce]

/-- A succeeding verifyPaymentProof call implies the proof hash was not in the
used-proof set (the require at PaymentVerifier.sol line 75). -/
theorem verify_ok_not_used (recover : SolProof → String → String) (st : VerifierState)
    (now : Nat) (p : SolProof) (sig : String)
    (h : verifyPaymentProofSol recover st now p sig = Except.ok ()) :
    p ∉ st.usedProofs := by
  intro hm
  unfold verifyPaymentProofSol at h
  split_ifs at h <;> simp_all

/-- C8. A successful markProofUsed commits the canonical hash to the persistent
used-set and increments the nonce counter of the recovered signer; every later
markProofUsed call for the same proof reverts (its result is never ok, whatever
clock, signature or recovery outcome the later call sees), because the used-set
only grows (final conjunct) and verifyPaymentProof requires the hash unused.
A reverted call yields no successor state, so the used-set and nonces are
unchanged by the failing call. -/
theorem C8_mark_used_exactly_once
    (recover : SolProof → String → String) (st : VerifierState) (p : SolProof)
    (sig : String) (now : Nat) (st2 : VerifierState)
    (h : markProofUsedSol recover st now p sig = Except.ok st2) :
    p ∈ st2.usedProofs
    ∧ lookupNonce st2 (recover p sig) = lookupNonce st (recover p sig) + 1
    ∧ (∀ (recover2 : SolProof → String → String) (sig2 : String) (now2 : Nat),
        (markProofUsedSol recover2 st2 now2 p sig2).isOk = false)
    ∧ (∀ (recover2 : SolProof → String → String) (st3 : VerifierState) (now2 : Nat)
        (q : SolProof) (sig2 : String) (st4 : VerifierState),
        markProofUsedSol recover2 st3 now2 q sig2 = Except.ok st4 →
        ∀ x, x ∈ st3.usedProofs → x ∈ st4.usedProofs) := by
  unfold markProofUsedSol at h
  cases hv : verifyPaymentProofSol recover st now p sig with
  | error e => rw [hv] at h; exact absurd h (by simp)
  | ok u =>
    rw [hv] at h
    simp only [Except.ok.injEq] at h
    subst h
    refine ⟨by simp [setNonce], ?_, ?_, ?_⟩
    · have := lookupNonce_setNonce
        { st with usedProofs := p :: st.usedProofs } (recover p sig)
        (lookupNonce st (recover p sig) + 1)
      simpa [lookupNonce] using this
    · intro recover2 sig2 now2
      cases hv2 : verifyPaymentProofSol recover2
          (setNonce { st with usedProofs := p :: st.usedProofs } (recover p sig)
            (lookupNonce st (recover p sig) + 1)) now2 p sig2 with
      | error e => simp [markProofUsedSol, hv2, Except.isOk, Except.toBool]
      | ok u2 =>
        cases u2
        have hnot := verify_ok_not_used recover2 _ now2 p sig2 hv2
        exact absurd (by simp [setNonce]) hnot
    · intro recover2 st3 now2 q sig2 st4 h4 x hx
      unfold markProofUsedSol at h4
      cases hv4 : verifyPaymentProofSol recover2 st3 now2 q sig2 with
      | error e => rw [hv4] at h4; exact absurd h4 (by simp)
      | ok u4 =>
        rw [hv4] at h4
        simp only [Except.ok.injEq] at h4
        subst h4
        simp [setNonce]
        exact Or.inr hx

/-- Witness for C8: a concrete empty-state run in which the proof is marked used and
the payer nonce moves from 0 to 1. -/
theorem C8_mark_used_exactly_once_witness :
    (⟨"0xt", "0xtok", "0xr", 1000, 500, 0⟩ : SolProof) ∈
      (⟨[⟨"0xt", "0xtok", "0xr", 1000, 500, 0⟩], [("0xpayer", 1)]⟩ : VerifierState).usedProofs
    ∧ lookupNonce ⟨[⟨"0xt", "0xtok", "0xr", 1000, 500, 0⟩], [("0xpayer", 1)]⟩ "0xpayer"
        = lookupNonce ⟨[], []⟩ "0xpayer" + 1
    ∧ (∀ (recover2 : SolProof → String → String) (sig2 : String) (now2 : Nat),
        (markProofUsedSol recover2 ⟨[⟨"0xt", "0xtok", "0xr", 1000, 500, 0⟩], [("0xpayer", 1)]⟩
          now2 ⟨"0xt", "0xtok", "0xr", 1000, 500, 0⟩ sig2).isOk = false)
    ∧ (∀ (recover2 : SolProof → String → String) (st3 : VerifierState) (now2 : Nat)
        (q : SolProof) (sig2 : String) (st4 : VerifierState),
        markProofUsedSol recover2 st3 now2 q sig2 = Except.ok st4 →
        ∀ x, x ∈ st3.usedProofs → x ∈ st4.usedProofs) :=
  C8_mark_used_exactly_once (fun _ _ => "0xpayer") ⟨[], []⟩
    ⟨"0xt", "0xtok", "0xr", 1000, 500, 0⟩ "0xsig" 500
    ⟨[⟨"0xt", "0xtok", "0xr", 1000, 500, 0⟩], [("0xpayer", 1)]⟩ rfl

/-- C9. The client fetch flow sends at most two requests and executes at most one
payment: whenever it returns a response, the request count is at most 2 and the
payment count at most 1; when a retry happened the returned response is the answer
to the second request, whatever its status (a second 402 is returned to the caller,
never retried again); and when the first response is not a 402 no payment happens
at all. -/
theorem C9_single_retry (autoRetry : Bool) (server : Nat → JsResponse)
    (payFn : String → Except String String) (res : JsResponse) (reqs pays : Nat)
    (h : clientFetch autoRetry server payFn = Except.ok (res, reqs, pays)) :
    reqs ≤ 2 ∧ pays ≤ 1 ∧ (reqs = 2 → res = server 1)
    ∧ ((server 0).status ≠ 402 → (reqs = 1 ∧ pays = 0 ∧ res = server 0)) := by
  unfold clientFetch at h
  by_cases hc : ((server 0).status == 402 && autoRetry) = true
  · rw [if_pos hc] at h
    have h402 : (server 0).status = 402 := by
      have := (Bool.and_eq_true _ _).mp hc
      simpa using this.1
    cases hch : (server 0).challenge with
    | none => rw [hch] at h; exact absurd h (by simp)
    | some ch =>
      rw [hch] at h
      cases hp : payFn ch with
      | error e => simp only [hp] at h; exact absurd h (by simp)
      | ok pr =>
        simp only [hp, Except.ok.injEq, Prod.mk.injEq] at h
        obtain ⟨hres, hreqs, hpays⟩ := h
        subst hres hreqs hpays
        exact ⟨by omega, by omega, fun _ => rfl, fun hne => absurd h402 hne⟩
  · rw [if_neg hc] at h
    simp only [Except.ok.injEq, Prod.mk.injEq] at h
    obtain ⟨hres, hreqs, hpays⟩ := h
    subst hres hreqs hpays
    exact ⟨by omega, by omega, by omega, fun _ => ⟨rfl, rfl, rfl⟩⟩

/-- Witness for C9: a server that answers 402 to both requests; the flow stops after
the single retry with one payment, returning the second 402. -/
theorem C9_single_retry_witness :
    2 ≤ 2 ∧ 1 ≤ 1 ∧ (2 = 2 → c9Server 1 = c9Server 1)
    ∧ ((c9Server 0).status ≠ 402 → (2 = 1 ∧ 1 = 0 ∧ c9Server 1 = c9Server 0)) :=
  C9_single_retry true c9Server c9Pay (c9Server 1) 2 1 rfl

/-- C10. The public decode interface accepts only truthy field values: decodeProof
returns the proof object exactly when all seven required fields are JS-truthy, and
for any object with some falsy field value — in particular a nonce equal to the
number 0, the documented client default — it throws the missing-required-field
error for one of the seven required field names even though the key is present. -/
theorem C10_falsy_field_rejected (p : ProofObj) :
    (decodeProofObj p = Except.ok p ↔ truthyAllProof p = true)
    ∧ (truthyAllProof p = false →
        ∃ f, f ∈ ["txHash", "token", "recipient", "amount", "timestamp", "nonce", "signature"]
          ∧ decodeProofObj p = Except.error ("Missing required field: " ++ f)) := by
  constructor
  · by_cases h1 : truthyStr p.txHash <;> by_cases h2 : truthyStr p.token <;>
      by_cases h3 : truthyStr p.recipient <;> by_cases h4 : truthyStr p.amount <;>
        by_cases h5 : truthyInt p.timestamp <;> by_cases h6 : truthyInt p.nonce <;>
          by_cases h7 : truthyStr p.signature <;>
            simp [decodeProofObj, truthyAllProof, h1, h2, h3, h4, h5, h6, h7]
  · intro hfalse
    by_cases h1 : truthyStr p.txHash
    case neg => exact ⟨"txHash", by simp, by simp [decodeProofObj, h1]⟩
    by_cases h2 : truthyStr p.token
    case neg => exact ⟨"token", by simp, by simp [decodeProofObj, h1, h2]⟩
    by_cases h3 : truthyStr p.recipient
    case neg => exact ⟨"recipient", by simp, by simp [decodeProofObj, h1, h2, h3]⟩
    by_cases h4 : truthyStr p.amount
    case neg => exact ⟨"amount", by simp, by simp [decodeProofObj, h1, h2, h3, h4]⟩
    by_cases h5 : truthyInt p.timestamp
    case neg => exact ⟨"timestamp", by simp, by simp [decodeProofObj, h1, h2, h3, h4, h5]⟩
    by_cases h6 : truthyInt p.nonce
    case neg => exact ⟨"nonce", by simp, by simp [decodeProofObj, h1, h2, h3, h4, h5, h6]⟩
    by_cases h7 : truthyStr p.signature
    case neg =>
      exact ⟨"signature", by simp, by simp [decodeProofObj, h1, h2, h3, h4, h5, h6, h7]⟩
    exact absurd hfalse (by simp [truthyAllProof, h1, h2, h3, h4, h5, h6, h7])

/-- Witness for C10 at the proof object every field of which is truthy except the
nonce, which is the client default 0. -/
theorem C10_falsy_field_rejected_witness :
    truthyAllProof
      { txHash := "0x1111111111111111111111111111111111111111111111111111111111111111",
        token := "0x036CbD53842c5426634e7929541eC2318f3dCF7e",
        recipient := "0xf81dc05616C47447Ffdc5a866642cDD26271D37b",
        amount := "1000", timestamp := 1700000000, nonce := clientDefaultNonce,
        signature := "0xsignature" } = false
    ∧ ∃ f, f ∈ ["txHash", "token", "recipient", "amount", "timestamp", "nonce", "signature"]
        ∧ decodeProofObj
            { txHash := "0x1111111111111111111111111111111111111111111111111111111111111111",
              token := "0x036CbD53842c5426634e7929541eC2318f3dCF7e",
              recipient := "0xf81dc05616C47447Ffdc5a866642cDD26271D37b",
              amount := "1000", timestamp := 1700000000, nonce := clientDefaultNonce,
              signature := "0xsignature" } = Except.error ("Missing required field: " ++ f) :=
  ⟨by decide,
    (C10_falsy_field_rejected
      { txHash := "0x1111111111111111111111111111111111111111111111111111111111111111",
        token := "0x036CbD53842c5426634e7929541eC2318f3dCF7e",
        recipient := "0xf81dc05616C47447Ffdc5a866642cDD26271D37b",
        amount := "1000", timestamp := 1700000000, nonce := clientDefaultNonce,
        signature := "0xsignature" }).2 (by decide)⟩

end X402
